import Mathlib

/-!
Verification of the request/response gateway in `backend/main.py` of
quanyongli/objectremover.

The program exposes one endpoint, `POST /ai`.  Its pydantic model `Message`
(with `model_config = ConfigDict(extra="ignore")`) validates the JSON body:
`message : str` is required, and four optional fields carry defaults of
`None`: `mentioned_scrubber_ids : list[str] | None`,
`timeline_state : dict[str, Any] | None`,
`mediabin_items : list[dict[str, Any]] | None`,
`chat_history : list[dict[str, Any]] | None`.
The handler `process_ai_message` unconditionally returns
`FunctionCallResponse(function_call=None, assistant_message="此功能已迁移到 Dify AI。请使用新的 AI 助手。")`.

We embed JSON values, the pydantic validation of `Message` under JSON-mode
lax semantics (pydantic v2: a `str` field accepts exactly JSON strings, no
int/bool coercion; `dict[str, Any]` accepts exactly JSON objects;
`list[str]` accepts exactly arrays of strings; `list[dict[str, Any]]`
accepts exactly arrays of objects; `X | None` additionally accepts `null`;
extra keys are ignored; duplicate keys in the decoded body resolve to the
last occurrence, as in Python's JSON decoding), and the handler itself.
-/

namespace ObjectRemover

/-- JSON values as delivered to the endpoint.  Numbers never have their
value inspected by the program, so an integer payload type suffices to
represent them. -/
inductive Json where
  | null : Json
  | bool : Bool → Json
  | num : Int → Json
  | str : String → Json
  | arr : List Json → Json
  | obj : List (String × Json) → Json
deriving Repr

/-- Key lookup in a decoded JSON object.  Python's JSON decoder keeps the
last occurrence of a duplicated key, so later bindings shadow earlier
ones. -/
def getField (fs : List (String × Json)) (k : String) : Option Json :=
  match fs with
  | [] => none
  | (k', v) :: rest =>
    match getField rest k with
    | some w => some w
    | none => if k' = k then some v else none

/-- pydantic v2 validation of a `str` field from JSON input: only a JSON
string is accepted (numbers and booleans are not coerced). -/
def Json.asString : Json → Option String
  | .str s => some s
  | _ => none

/-- Validation of the items of a `list[str]` field: every element must be a
JSON string. -/
def allStrings : List Json → Option (List String)
  | [] => some []
  | v :: vs =>
    match Json.asString v, allStrings vs with
    | some s, some ss => some (s :: ss)
    | _, _ => none

/-- Validation of a `list[str]` field from JSON input. -/
def Json.asListString : Json → Option (List String)
  | .arr xs => allStrings xs
  | _ => none

/-- Validation of a `dict[str, Any]` field from JSON input: any JSON object
passes (keys of a decoded object are always strings, values are
unconstrained). -/
def Json.asObjFields : Json → Option (List (String × Json))
  | .obj fs => some fs
  | _ => none

/-- Validation of the items of a `list[dict[str, Any]]` field. -/
def allObjs : List Json → Option (List (List (String × Json)))
  | [] => some []
  | v :: vs =>
    match Json.asObjFields v, allObjs vs with
    | some f, some fss => some (f :: fss)
    | _, _ => none

/-- Validation of a `list[dict[str, Any]]` field from JSON input. -/
def Json.asListObj : Json → Option (List (List (String × Json)))
  | .arr xs => allObjs xs
  | _ => none

/-- Validation of an optional field `X | None = None`: an absent key or an
explicit `null` yields the default `none`; any other value must validate as
`X`.  The outer `Option` is the validation outcome, the inner one the
field's value. -/
def optField {α : Type} (conv : Json → Option α) : Option Json → Option (Option α)
  | none => some none
  | some Json.null => some none
  | some v => (conv v).map some

/-- The parsed request model `Message` of `backend/main.py`. -/
structure Message where
  message : String
  mentioned_scrubber_ids : Option (List String)
  timeline_state : Option (List (String × Json))
  mediabin_items : Option (List (List (String × Json)))
  chat_history : Option (List (List (String × Json)))
deriving Repr

/-- A pydantic validation failure, as surfaced by the framework as an
HTTP 422 response; `loc` records which fields failed (empty when the body
itself is not a JSON object). -/
structure ValidationError where
  loc : List String
deriving Repr

/-- Validation of the request body against the `Message` model: the body
must be a JSON object; `message` must be present and a string; each of the
four optional fields, when present and non-null, must match its annotated
shape; keys outside the five declared fields are ignored
(`extra="ignore"`).  Errors are collected per field, as pydantic does. -/
def Message.validate (payload : Json) : Except ValidationError Message :=
  match payload with
  | .obj fs =>
    let m := (getField fs "message").bind Json.asString
    let ids := optField Json.asListString (getField fs "mentioned_scrubber_ids")
    let ts := optField Json.asObjFields (getField fs "timeline_state")
    let mb := optField Json.asListObj (getField fs "mediabin_items")
    let ch := optField Json.asListObj (getField fs "chat_history")
    match m, ids, ts, mb, ch with
    | some m, some ids, some ts, some mb, some ch =>
      .ok ⟨m, ids, ts, mb, ch⟩
    | _, _, _, _, _ =>
      .error ⟨(if m.isNone then ["message"] else [])
        ++ (if ids.isNone then ["mentioned_scrubber_ids"] else [])
        ++ (if ts.isNone then ["timeline_state"] else [])
        ++ (if mb.isNone then ["mediabin_items"] else [])
        ++ (if ch.isNone then ["chat_history"] else [])⟩
  | _ => .error ⟨[]⟩

/-- Modelled from the spec: the response envelope `FunctionCallResponse` is
declared in the repository's `schema` module, which is absent from the
provided sources.  Its shape follows spec §3 (two optional fields,
`functionCall` a structured action descriptor, `assistantMessage` a text
reply, null/absent meaning none) together with the keyword arguments of the
construction site in `main.py`. -/
structure FunctionCallResponse where
  function_call : Option Json
  assistant_message : Option String
deriving Repr

/-- The fixed placeholder text returned by the disabled endpoint. -/
def placeholderMessage : String := "此功能已迁移到 Dify AI。请使用新的 AI 助手。"

/-- The handler body of `process_ai_message`: for any parsed `Message` it
returns the placeholder envelope. -/
def process_ai_message (_req : Message) : FunctionCallResponse :=
  { function_call := none, assistant_message := some placeholderMessage }

/-- The envelope the endpoint always produces. -/
def placeholderResponse : FunctionCallResponse :=
  { function_call := none, assistant_message := some placeholderMessage }

/-- The whole `POST /ai` request path: validate the body against `Message`,
then run the handler.  An `Except.error` is the framework's 422 validation
response; an `Except.ok` is the 200 response carrying the envelope. -/
def handleChatRequest (payload : Json) : Except ValidationError FunctionCallResponse :=
  (Message.validate payload).map process_ai_message

/-- State-passing form of one request handling step, over an arbitrary type
`σ` of state outside the per-request response (module globals, storage,
outbound connections).  The handler's body in `main.py` performs only the
construction and return of the envelope — it contains no read or write of
any such state — so its state-passing translation returns the ambient state
unchanged. -/
def handleChatRequestWith {σ : Type} (st : σ) (payload : Json) :
    Except ValidationError FunctionCallResponse × σ :=
  (handleChatRequest payload, st)

mutual

/-- Serialization of a JSON value to response-body text, mirroring the
framework's JSON serialization of the response model. -/
def Json.render : Json → String
  | .null => "null"
  | .bool b => cond b "true" "false"
  | .num n => toString n
  | .str s => "\"" ++ s ++ "\""
  | .arr xs => "[" ++ Json.renderItems xs ++ "]"
  | .obj fs => "\x7b" ++ Json.renderFields fs ++ "\x7d"

/-- Serialization of the items of a JSON array. -/
def Json.renderItems : List Json → String
  | [] => ""
  | [x] => Json.render x
  | x :: xs => Json.render x ++ ", " ++ Json.renderItems xs

/-- Serialization of the bindings of a JSON object. -/
def Json.renderFields : List (String × Json) → String
  | [] => ""
  | [(k, v)] => "\"" ++ k ++ "\": " ++ Json.render v
  | (k, v) :: fs => "\"" ++ k ++ "\": " ++ Json.render v ++ ", " ++ Json.renderFields fs

end

/-- JSON form of the response envelope, with the two field names the
serialized response body carries. -/
def FunctionCallResponse.toJson (r : FunctionCallResponse) : Json :=
  .obj [("function_call", r.function_call.getD Json.null),
        ("assistant_message", (r.assistant_message.map Json.str).getD Json.null)]

/-- The response body as bytes on the wire: the serialized envelope for a
200 response, the serialized validation detail for a 422 response. -/
def responseBody : Except ValidationError FunctionCallResponse → String
  | .ok r => Json.render r.toJson
  | .error e =>
    "\x7b\"detail\": " ++ Json.render (.arr (e.loc.map Json.str)) ++ "\x7d"

/-- A JSON value that is a text node. -/
def isTextValue : Json → Bool
  | .str _ => true
  | _ => false

/-- A JSON value that is an object node. -/
def isObjValue : Json → Bool
  | .obj _ => true
  | _ => false

/-- Acceptable shapes of a present `mentioned_scrubber_ids` value: `null` or
an array of strings. -/
def shapeOkListStr : Json → Bool
  | .null => true
  | .arr xs => xs.all isTextValue
  | _ => false

/-- Acceptable shapes of a present `timeline_state` value: `null` or any
object. -/
def shapeOkObj : Json → Bool
  | .null => true
  | .obj _ => true
  | _ => false

/-- Acceptable shapes of a present `mediabin_items` / `chat_history` value:
`null` or an array of objects. -/
def shapeOkListObj : Json → Bool
  | .null => true
  | .arr xs => xs.all isObjValue
  | _ => false

/-- An optional field is acceptable when absent, or present with an
acceptable shape. -/
def fieldOk (shape : Json → Bool) (fs : List (String × Json)) (k : String) : Bool :=
  match getField fs k with
  | none => true
  | some v => shape v

/-- The payload carries a present, text-typed `message` field. -/
def hasTextMessage : Json → Bool
  | .obj fs =>
    match getField fs "message" with
    | some v => isTextValue v
    | none => false
  | _ => false

/-- Every recognized optional field of the payload, when present, matches
its annotated shape. -/
def optionalFieldsOk : Json → Bool
  | .obj fs =>
    fieldOk shapeOkListStr fs "mentioned_scrubber_ids"
      && fieldOk shapeOkObj fs "timeline_state"
      && fieldOk shapeOkListObj fs "mediabin_items"
      && fieldOk shapeOkListObj fs "chat_history"
  | _ => false

/-- A structurally valid payload: a JSON object with a text-typed `message`
whose recognized optional fields, when present, match their annotated
shapes. -/
def structurallyValid (p : Json) : Bool :=
  hasTextMessage p && optionalFieldsOk p

/-- The five field names declared by the `Message` model; every other
top-level key is unknown to it. -/
def recognizedKeys : List String :=
  ["message", "mentioned_scrubber_ids", "timeline_state", "mediabin_items", "chat_history"]

/-- A payload made of a text `message` and arbitrary values for the three
opaque pass-through fields. -/
def mkOpaquePayload (msg : String) (ts mb ch : Json) : Json :=
  .obj [("message", .str msg), ("timeline_state", ts),
        ("mediabin_items", mb), ("chat_history", ch)]

/-! ### Helper lemmas -/

theorem asString_isSome (v : Json) : (Json.asString v).isSome = isTextValue v := by
  cases v <;> rfl

theorem asObjFields_isSome (v : Json) : (Json.asObjFields v).isSome = isObjValue v := by
  cases v <;> rfl

theorem allStrings_isSome (xs : List Json) :
    (allStrings xs).isSome = xs.all isTextValue := by
  induction xs with
  | nil => rfl
  | cons x xs ih =>
    have hx := asString_isSome x
    cases h1 : Json.asString x with
    | none =>
      rw [h1] at hx
      simp [allStrings, h1, List.all_cons, ← hx]
    | some s =>
      rw [h1] at hx
      cases h2 : allStrings xs with
      | none =>
        rw [h2] at ih
        simp [allStrings, h1, h2, List.all_cons, ← ih]
      | some ss =>
        rw [h2] at ih
        simp [allStrings, h1, h2, List.all_cons, ← hx, ← ih]

theorem allObjs_isSome (xs : List Json) :
    (allObjs xs).isSome = xs.all isObjValue := by
  induction xs with
  | nil => rfl
  | cons x xs ih =>
    have hx := asObjFields_isSome x
    cases h1 : Json.asObjFields x with
    | none =>
      rw [h1] at hx
      simp [allObjs, h1, List.all_cons, ← hx]
    | some f =>
      rw [h1] at hx
      cases h2 : allObjs xs with
      | none =>
        rw [h2] at ih
        simp [allObjs, h1, h2, List.all_cons, ← ih]
      | some fss =>
        rw [h2] at ih
        simp [allObjs, h1, h2, List.all_cons, ← hx, ← ih]

theorem optField_listStr_isSome (o : Option Json) :
    (optField Json.asListString o).isSome =
      (match o with | none => true | some v => shapeOkListStr v) := by
  match o with
  | none => rfl
  | some Json.null => rfl
  | some (Json.bool b) => rfl
  | some (Json.num n) => rfl
  | some (Json.str s) => rfl
  | some (Json.arr xs) =>
    simp [optField, Json.asListString, shapeOkListStr, allStrings_isSome]
  | some (Json.obj fs) => rfl

theorem optField_obj_isSome (o : Option Json) :
    (optField Json.asObjFields o).isSome =
      (match o with | none => true | some v => shapeOkObj v) := by
  match o with
  | none => rfl
  | some Json.null => rfl
  | some (Json.bool b) => rfl
  | some (Json.num n) => rfl
  | some (Json.str s) => rfl
  | some (Json.arr xs) => rfl
  | some (Json.obj fs) => rfl

theorem optField_listObj_isSome (o : Option Json) :
    (optField Json.asListObj o).isSome =
      (match o with | none => true | some v => shapeOkListObj v) := by
  match o with
  | none => rfl
  | some Json.null => rfl
  | some (Json.bool b) => rfl
  | some (Json.num n) => rfl
  | some (Json.str s) => rfl
  | some (Json.arr xs) =>
    simp [optField, Json.asListObj, shapeOkListObj, allObjs_isSome]
  | some (Json.obj fs) => rfl

theorem optField_fieldOk_listStr (fs : List (String × Json)) (k : String) :
    (optField Json.asListString (getField fs k)).isSome = fieldOk shapeOkListStr fs k := by
  rw [optField_listStr_isSome]
  unfold fieldOk
  cases getField fs k <;> rfl

theorem optField_fieldOk_obj (fs : List (String × Json)) (k : String) :
    (optField Json.asObjFields (getField fs k)).isSome = fieldOk shapeOkObj fs k := by
  rw [optField_obj_isSome]
  unfold fieldOk
  cases getField fs k <;> rfl

theorem optField_fieldOk_listObj (fs : List (String × Json)) (k : String) :
    (optField Json.asListObj (getField fs k)).isSome = fieldOk shapeOkListObj fs k := by
  rw [optField_listObj_isSome]
  unfold fieldOk
  cases getField fs k <;> rfl

theorem message_field_isSome (fs : List (String × Json)) :
    ((getField fs "message").bind Json.asString).isSome = hasTextMessage (.obj fs) := by
  simp only [hasTextMessage]
  cases getField fs "message" with
  | none => rfl
  | some v => simp [asString_isSome]

theorem validate_isOk_eq (p : Json) :
    (Message.validate p).isOk = structurallyValid p := by
  cases p with
  | null => rfl
  | bool b => rfl
  | num n => rfl
  | str s => rfl
  | arr xs => rfl
  | obj fs =>
    have key : (Message.validate (.obj fs)).isOk =
        (((getField fs "message").bind Json.asString).isSome
          && ((optField Json.asListString (getField fs "mentioned_scrubber_ids")).isSome
          && ((optField Json.asObjFields (getField fs "timeline_state")).isSome
          && ((optField Json.asListObj (getField fs "mediabin_items")).isSome
          && (optField Json.asListObj (getField fs "chat_history")).isSome)))) := by
      cases h1 : (getField fs "message").bind Json.asString <;>
        cases h2 : optField Json.asListString (getField fs "mentioned_scrubber_ids") <;>
        cases h3 : optField Json.asObjFields (getField fs "timeline_state") <;>
        cases h4 : optField Json.asListObj (getField fs "mediabin_items") <;>
        cases h5 : optField Json.asListObj (getField fs "chat_history") <;>
        simp [Message.validate, h1, h2, h3, h4, h5, Except.isOk, Except.toBool]
    rw [key, message_field_isSome, optField_fieldOk_listStr, optField_fieldOk_obj,
      optField_fieldOk_listObj, optField_fieldOk_listObj]
    simp [structurallyValid, optionalFieldsOk, Bool.and_assoc]

theorem handle_isOk_eq (p : Json) :
    (handleChatRequest p).isOk = structurallyValid p := by
  rw [← validate_isOk_eq]
  unfold handleChatRequest
  cases Message.validate p <;> rfl

theorem handle_ok_of_valid (p : Json) (h : structurallyValid p = true) :
    handleChatRequest p = Except.ok placeholderResponse := by
  rw [← validate_isOk_eq] at h
  unfold handleChatRequest
  cases hv : Message.validate p with
  | error e => rw [hv] at h; exact absurd h (by simp [Except.isOk, Except.toBool])
  | ok m => rfl

theorem handle_ok_inv (p : Json) (r : FunctionCallResponse)
    (h : handleChatRequest p = Except.ok r) : r = placeholderResponse := by
  unfold handleChatRequest at h
  cases hv : Message.validate p with
  | error e => rw [hv] at h; exact absurd h (by simp [Except.map])
  | ok m =>
    rw [hv] at h
    simp only [Except.map, Except.ok.injEq] at h
    exact h.symm

theorem getField_eq_none (extra : List (String × Json)) (k : String)
    (h : ∀ kv ∈ extra, kv.1 ≠ k) : getField extra k = none := by
  induction extra with
  | nil => rfl
  | cons kv rest ih =>
    cases kv with
    | mk k' v =>
      unfold getField
      rw [ih (fun kv hm => h kv (List.mem_cons_of_mem _ hm))]
      rw [if_neg (h (k', v) (List.mem_cons_self _ _))]

theorem getField_append (fs extra : List (String × Json)) (k : String)
    (h : getField extra k = none) :
    getField (fs ++ extra) k = getField fs k := by
  induction fs with
  | nil => simpa using h
  | cons kv rest ih =>
    cases kv with
    | mk k' v =>
      simp only [List.cons_append]
      unfold getField
      rw [ih]

theorem validate_append_extra (fs extra : List (String × Json))
    (h : ∀ kv ∈ extra, kv.1 ∉ recognizedKeys) :
    Message.validate (.obj (fs ++ extra)) = Message.validate (.obj fs) := by
  have hk : ∀ k, k ∈ recognizedKeys → getField (fs ++ extra) k = getField fs k := by
    intro k hkmem
    exact getField_append fs extra k
      (getField_eq_none extra k (fun kv hm heq => h kv hm (heq ▸ hkmem)))
  simp only [Message.validate]
  rw [hk "message" (by simp [recognizedKeys]),
    hk "mentioned_scrubber_ids" (by simp [recognizedKeys]),
    hk "timeline_state" (by simp [recognizedKeys]),
    hk "mediabin_items" (by simp [recognizedKeys]),
    hk "chat_history" (by simp [recognizedKeys])]

theorem sv_mkOpaque (msg : String) (ts mb ch : Json)
    (h1 : shapeOkObj ts = true) (h2 : shapeOkListObj mb = true)
    (h3 : shapeOkListObj ch = true) :
    structurallyValid (mkOpaquePayload msg ts mb ch) = true := by
  simp [structurallyValid, mkOpaquePayload, hasTextMessage, optionalFieldsOk,
    fieldOk, getField, isTextValue, h1, h2, h3]

/-! ### Claims -/

/-- C1, counterexample: the payload
`\x7b"message": "hi", "timeline_state": "oops"\x7d` has `message` present
and text-typed, yet `handleChatRequest` rejects it with a
`ValidationError`, because the `Message` model also type-checks
`timeline_state` against `dict[str, Any] | None` and a string is neither an
object nor null.  So validation is not decided by the `message` field
alone, contrary to the claim. -/
theorem required_field_only_counterexample :
    hasTextMessage (Json.obj [("message", Json.str "hi"),
        ("timeline_state", Json.str "oops")]) = true ∧
    (handleChatRequest (Json.obj [("message", Json.str "hi"),
        ("timeline_state", Json.str "oops")])).isOk = false :=
  ⟨rfl, rfl⟩

/-- C1, amended: `handleChatRequest` succeeds exactly when the payload is a
JSON object whose `message` field is present and text-typed AND every
recognized optional field, when present, matches its annotated shape
(`mentioned_scrubber_ids` an array of strings, `timeline_state` an object,
`mediabin_items` and `chat_history` arrays of objects, each also accepting
null); otherwise it fails with a `ValidationError`. -/
theorem validation_iff_structural (p : Json) :
    (handleChatRequest p).isOk = (hasTextMessage p && optionalFieldsOk p) := by
  rw [handle_isOk_eq]
  rfl

/-- C2, counterexample: with `message` present and text-typed, the
type-mismatched value `3` for `timeline_state` makes the request fail
rather than succeed, so the call is not insensitive to arbitrary values of
the opaque fields. -/
theorem opaque_passthrough_counterexample :
    hasTextMessage (Json.obj [("message", Json.str "hi"),
        ("timeline_state", Json.num 3)]) = true ∧
    (handleChatRequest (Json.obj [("message", Json.str "hi"),
        ("timeline_state", Json.num 3)])).isOk = false :=
  ⟨rfl, rfl⟩

/-- C2, amended: for every value of `timeline_state` that is an object or
null and every value of `mediabin_items` and `chat_history` that is an
array of objects or null — with arbitrary, unvalidated content below that
top level — a request with a text-typed `message` succeeds, and the
response is identical regardless of the content of these three fields: two
valid requests differing only in them yield the same response. -/
theorem opaque_fields_ok_and_uniform (msg : String) (ts mb ch : Json)
    (h1 : shapeOkObj ts = true) (h2 : shapeOkListObj mb = true)
    (h3 : shapeOkListObj ch = true) :
    handleChatRequest (mkOpaquePayload msg ts mb ch) = Except.ok placeholderResponse ∧
    ∀ ts2 mb2 ch2 : Json, shapeOkObj ts2 = true → shapeOkListObj mb2 = true →
      shapeOkListObj ch2 = true →
      handleChatRequest (mkOpaquePayload msg ts mb ch)
        = handleChatRequest (mkOpaquePayload msg ts2 mb2 ch2) := by
  refine ⟨handle_ok_of_valid _ (sv_mkOpaque msg ts mb ch h1 h2 h3), ?_⟩
  intro ts2 mb2 ch2 g1 g2 g3
  rw [handle_ok_of_valid _ (sv_mkOpaque msg ts mb ch h1 h2 h3),
    handle_ok_of_valid _ (sv_mkOpaque msg ts2 mb2 ch2 g1 g2 g3)]

/-- C2, witness: a deeply nested `timeline_state`, a null `mediabin_items`
and a chat-history turn validate and give the placeholder response, equal
to the response for a second request with different opaque values. -/
theorem opaque_fields_ok_and_uniform_witness :
    handleChatRequest (mkOpaquePayload "hi" (Json.obj [("tracks", Json.arr [])])
        Json.null (Json.arr [Json.obj [("role", Json.str "user"),
          ("content", Json.str "hi")]]))
      = Except.ok placeholderResponse ∧
    handleChatRequest (mkOpaquePayload "hi" (Json.obj [("tracks", Json.arr [])])
        Json.null (Json.arr [Json.obj [("role", Json.str "user"),
          ("content", Json.str "hi")]]))
      = handleChatRequest (mkOpaquePayload "hi" Json.null (Json.arr []) Json.null) :=
  have h := opaque_fields_ok_and_uniform "hi" (Json.obj [("tracks", Json.arr [])])
    Json.null (Json.arr [Json.obj [("role", Json.str "user"),
      ("content", Json.str "hi")]]) rfl rfl rfl
  ⟨h.1, h.2 Json.null (Json.arr []) Json.null rfl rfl rfl⟩

/-- C3: every accepted request is answered with the envelope whose
`function_call` is null and whose `assistant_message` is the fixed
non-empty placeholder string; in particular
`\x7b"message": "hello"\x7d` yields exactly the placeholder envelope,
whose serialized body is the fixed JSON object. -/
theorem response_invariant :
    (∀ (p : Json) (r : FunctionCallResponse),
        handleChatRequest p = Except.ok r →
        r.function_call = none ∧ r.assistant_message = some placeholderMessage) ∧
    handleChatRequest (Json.obj [("message", Json.str "hello")])
      = Except.ok placeholderResponse ∧
    Json.render (FunctionCallResponse.toJson placeholderResponse)
      = "\x7b\"function_call\": null, \"assistant_message\": \"此功能已迁移到 Dify AI。请使用新的 AI 助手。\"\x7d" ∧
    placeholderMessage ≠ "" := by
  refine ⟨?_, rfl, rfl, by decide⟩
  intro p r h
  rw [handle_ok_inv p r h]
  exact ⟨rfl, rfl⟩

/-- C3, witness: the response invariant applied to the concrete accepted
request `\x7b"message": "hello"\x7d`. -/
theorem response_invariant_witness :
    placeholderResponse.function_call = none ∧
    placeholderResponse.assistant_message = some placeholderMessage :=
  response_invariant.1 (Json.obj [("message", Json.str "hello")])
    placeholderResponse rfl

/-- C4: the handler body returns the well-formed placeholder envelope for
every parsed `Message` — it has no reachable error branch — so every
structurally valid request receives a 200 response carrying that
envelope. -/
theorem always_envelope :
    (∀ m : Message, process_ai_message m = placeholderResponse) ∧
    (∀ p : Json, (Message.validate p).isOk = true →
      handleChatRequest p = Except.ok placeholderResponse) := by
  refine ⟨fun _ => rfl, fun p h => ?_⟩
  rw [validate_isOk_eq] at h
  exact handle_ok_of_valid p h

/-- C4, witness: the envelope is produced for the concrete valid request
`\x7b"message": "x", "mentioned_scrubber_ids": ["a", "b"]\x7d`. -/
theorem always_envelope_witness :
    handleChatRequest (Json.obj [("message", Json.str "x"),
        ("mentioned_scrubber_ids", Json.arr [Json.str "a", Json.str "b"])])
      = Except.ok placeholderResponse :=
  always_envelope.2 (Json.obj [("message", Json.str "x"),
    ("mentioned_scrubber_ids", Json.arr [Json.str "a", Json.str "b"])]) rfl

/-- C5: keys outside the five fields declared by the `Message` model are
silently ignored — appending arbitrary unknown keys to a valid payload
changes neither the success/failure outcome nor the response body. -/
theorem unknown_fields_ignored (fs extra : List (String × Json))
    (hextra : ∀ kv ∈ extra, kv.1 ∉ recognizedKeys)
    (_hvalid : (handleChatRequest (Json.obj fs)).isOk = true) :
    handleChatRequest (Json.obj (fs ++ extra)) = handleChatRequest (Json.obj fs) := by
  unfold handleChatRequest
  rw [validate_append_extra fs extra hextra]

/-- C5, witness: adding the unknown key `unexpected_field` to the valid
payload `\x7b"message": "x"\x7d` leaves the response unchanged. -/
theorem unknown_fields_ignored_witness :
    handleChatRequest (Json.obj ([("message", Json.str "x")]
        ++ [("unexpected_field", Json.str "z")]))
      = handleChatRequest (Json.obj [("message", Json.str "x")]) :=
  unknown_fields_ignored [("message", Json.str "x")]
    [("unexpected_field", Json.str "z")] (by decide) rfl

/-- C6: handling is deterministic — the same request body, issued twice
(from arbitrary ambient states, so in particular in two successive runs),
produces the same result and byte-identical serialized response bodies. -/
theorem same_request_same_body (σ : Type) (s1 s2 : σ) (p : Json) :
    (handleChatRequestWith s1 p).1 = (handleChatRequestWith s2 p).1 ∧
    responseBody (handleChatRequestWith s1 p).1
      = responseBody (handleChatRequestWith s2 p).1 :=
  ⟨rfl, rfl⟩

/-- C7: handling a request leaves every piece of state outside the
per-request response untouched — the state-passing form of the handler
returns the ambient state unchanged, for any state type. -/
theorem no_side_effects (σ : Type) (st : σ) (p : Json) :
    (handleChatRequestWith st p).2 = st :=
  rfl

/-- C8: full-request noninterference — any two accepted requests, whatever
their `message` texts or other fields, receive identical responses; the
output depends on no field of the parsed request. -/
theorem full_noninterference (p1 p2 : Json) (r1 r2 : FunctionCallResponse)
    (h1 : handleChatRequest p1 = Except.ok r1)
    (h2 : handleChatRequest p2 = Except.ok r2) : r1 = r2 := by
  rw [handle_ok_inv p1 r1 h1, handle_ok_inv p2 r2 h2]

/-- C8, witness: two concrete accepted requests with different `message`
texts and different `mentioned_scrubber_ids` get the same response. -/
theorem full_noninterference_witness :
    handleChatRequest (Json.obj [("message", Json.str "hello")])
      = Except.ok placeholderResponse ∧
    handleChatRequest (Json.obj [("message", Json.str "other"),
        ("mentioned_scrubber_ids", Json.arr [Json.str "a"])])
      = Except.ok placeholderResponse ∧
    placeholderResponse = placeholderResponse :=
  ⟨rfl, rfl,
    full_noninterference (Json.obj [("message", Json.str "hello")])
      (Json.obj [("message", Json.str "other"),
        ("mentioned_scrubber_ids", Json.arr [Json.str "a"])])
      placeholderResponse placeholderResponse rfl rfl⟩

/-- C9: the required-field check is presence-and-type only — the payload
whose `message` is the empty string validates and receives the standard
placeholder envelope. -/
theorem empty_message_accepted :
    handleChatRequest (Json.obj [("message", Json.str "")])
      = Except.ok placeholderResponse :=
  rfl

end ObjectRemover
